import Mathlib

/-!
Verification of the Cybo-Air safety-envelope and duty-cycle governance core.

Shallow embedding of the Rust sources into Lean 4.  `f64` values are
modelled as exact rationals (`ℚ`) wherever the code only performs
field arithmetic, `max`/`min`, clamping and comparisons, so that every
definition is executable and witnesses can be checked by `decide`.
The one exponential-based function (`compute_sbee`) is modelled over `ℝ`
with `Real.exp`.  Rust `&mut` updates are modelled by returning the new
value of the mutated record; Rust `Result<(), E>` on a `&mut` receiver is
modelled as `Option E × State` (the error, if any, paired with the state
after the call).
-/

namespace CorridorSafety

/-- Row schema from `src/cyboair_corridor_safety/src/lib.rs` (`CorridorRow`). -/
structure CorridorRow where
  machine_id : String
  rtype : String
  location : String
  pollutant : String
  cin : ℚ
  cout : ℚ
  unit : String
  airflow_m3_per_s : ℚ
  period_s : ℚ
  lambda_hazard : ℚ
  beta_nb_per_kg : ℚ
  ecoimpact_score : ℚ
deriving DecidableEq

/-- Minimal node state (`NodeState`) for corridor control. -/
structure NodeState where
  row : CorridorRow
  mass_kg : ℚ
  karma_bytes : ℚ
  duty_cycle : ℚ
  power_w : ℚ
  geo_weight : ℚ
deriving DecidableEq

/-- Eco-band classification (`EcoBand`). -/
inductive EcoBand where
  | Green
  | Amber
  | Red
deriving DecidableEq

/-- Errors for invariants and envelopes (`SafetyError`); the `&'static str`
payloads are kept as strings. -/
inductive SafetyError where
  | EnvelopeViolation (msg : String)
  | HostBudgetExceeded (msg : String)
  | DwCeilingExceeded (msg : String)
deriving DecidableEq

/-- Rust `unit_to_kg_factor`: conversion from shard concentration units to kg/m³.
The Rust `match` on the unit string becomes an `if`-chain; `R = 8.3145`. -/
def unit_to_kg_factor (unit : String) (temperature_k molar_mass_kg_per_mol : ℚ) : ℚ :=
  if unit = "ugm3" then 1/1000000000
  else if unit = "mgm3" then 1/1000000
  else if unit = "ppb" then
    molar_mass_kg_per_mol / ((83145/10000) * temperature_k) * (1/1000000000)
  else 0

/-- Rust `compute_mass_kg`: CEIM-style mass operator `M = C_u * Q * t`. -/
def compute_mass_kg (row : CorridorRow) (temperature_k molar_mass_kg_per_mol : ℚ) : ℚ :=
  let alpha := unit_to_kg_factor row.unit temperature_k molar_mass_kg_per_mol
  let delta_c := max (row.cin - row.cout) 0
  let c_u := alpha * delta_c
  c_u * row.airflow_m3_per_s * row.period_s

/-- Rust `compute_karma_bytes`: hazard-weighted NanoKarmaBytes `K = λ·β·M`. -/
def compute_karma_bytes (row : CorridorRow) (mass_kg : ℚ) : ℚ :=
  row.lambda_hazard * row.beta_nb_per_kg * mass_kg

/-- Trait `SafetyEnvelope`: `check_envelope` returns `none` for `Ok(())`. -/
class SafetyEnvelope (E : Type) where
  check_envelope : E → NodeState → Option SafetyError

/-- Trait `HostBudget`. -/
class HostBudget (H : Type) where
  check_host_budget : H → NodeState → Option SafetyError
  power_fraction : H → NodeState → ℚ

/-- Trait `EcoBandClassifier`. -/
class EcoBandClassifier (B : Type) where
  classify : B → ℚ → EcoBand
  band_gain : B → EcoBand → ℚ

/-- Trait `DwCeilingInvariant`. -/
class DwCeilingInvariant (D : Type) where
  check_dw_ceiling : D → ℚ → Option SafetyError
  dw_violation : D → ℚ → ℚ

/-- Rust `RectSafetyEnvelope`: rectangular envelope over duty, altitude, ecoimpact.
The altitude map is an externally supplied function, as in the Rust
`altitude_m: fn(&str) -> f64` field. -/
structure RectSafetyEnvelope where
  u_min : ℚ
  u_max : ℚ
  z_min_m : ℚ
  z_max_m : ℚ
  ecoimpact_min : ℚ
  ecoimpact_max : ℚ
  altitude_m : String → ℚ

/-- Rust `RectSafetyEnvelope::check_envelope`. -/
def rect_check_envelope (e : RectSafetyEnvelope) (node : NodeState) : Option SafetyError :=
  let u := node.duty_cycle
  if u < e.u_min ∨ u > e.u_max then
    some (.EnvelopeViolation ("duty_cycle out of bounds"))
  else
    let z := e.altitude_m node.row.location
    if z < e.z_min_m ∨ z > e.z_max_m then
      some (.EnvelopeViolation ("altitude out of bounds"))
    else
      let s := node.row.ecoimpact_score
      if s < e.ecoimpact_min ∨ s > e.ecoimpact_max then
        some (.EnvelopeViolation ("ecoimpact score outside envelope"))
      else none

instance instRectEnvelope : SafetyEnvelope RectSafetyEnvelope := ⟨rect_check_envelope⟩

/-- Rust `SimpleHostBudget`: instantaneous power and per-step energy budget. -/
structure SimpleHostBudget where
  p_max_w : ℚ
  e_step_max_j : ℚ
  step_dt_s : ℚ
deriving DecidableEq

/-- Rust `SimpleHostBudget::check_host_budget`. -/
def simple_check_host_budget (h : SimpleHostBudget) (node : NodeState) : Option SafetyError :=
  if node.power_w > h.p_max_w then
    some (.HostBudgetExceeded ("instantaneous power exceeded"))
  else
    let e_step := node.power_w * h.step_dt_s
    if e_step > h.e_step_max_j then
      some (.HostBudgetExceeded ("per-step energy exceeded"))
    else none

/-- Rust `SimpleHostBudget::power_fraction`. -/
def simple_power_fraction (h : SimpleHostBudget) (node : NodeState) : ℚ :=
  if h.p_max_w ≤ 0 then 0 else max (node.power_w / h.p_max_w) 0

instance instSimpleBudget : HostBudget SimpleHostBudget :=
  ⟨simple_check_host_budget, simple_power_fraction⟩

/-- Rust `ThresholdEcoBand`: linear eco-band classifier. -/
structure ThresholdEcoBand where
  theta_green_amber : ℚ
  theta_amber_red : ℚ
  gain_green : ℚ
  gain_amber : ℚ
  gain_red : ℚ
deriving DecidableEq

/-- Rust `ThresholdEcoBand::classify`. -/
def threshold_classify (b : ThresholdEcoBand) (eco_load : ℚ) : EcoBand :=
  if eco_load < b.theta_green_amber then .Green
  else if eco_load < b.theta_amber_red then .Amber
  else .Red

/-- Rust `ThresholdEcoBand::band_gain`. -/
def threshold_band_gain (b : ThresholdEcoBand) (band : EcoBand) : ℚ :=
  match band with
  | .Green => b.gain_green
  | .Amber => b.gain_amber
  | .Red => b.gain_red

instance instThresholdBand : EcoBandClassifier ThresholdEcoBand :=
  ⟨threshold_classify, threshold_band_gain⟩

/-- Rust `SimpleDwCeiling`: DW ceiling invariant over mass flux density. -/
structure SimpleDwCeiling where
  phi_dw_max : ℚ
deriving DecidableEq

/-- Rust `SimpleDwCeiling::check_dw_ceiling`. -/
def simple_check_dw_ceiling (d : SimpleDwCeiling) (phi_dw : ℚ) : Option SafetyError :=
  if phi_dw > d.phi_dw_max then some (.DwCeilingExceeded ("dw ceiling violated")) else none

/-- Rust `SimpleDwCeiling::dw_violation`. -/
def simple_dw_violation (d : SimpleDwCeiling) (phi_dw : ℚ) : ℚ :=
  if d.phi_dw_max ≤ 0 then 0 else max ((phi_dw - d.phi_dw_max) / d.phi_dw_max) 0

instance instSimpleDw : DwCeilingInvariant SimpleDwCeiling :=
  ⟨simple_check_dw_ceiling, simple_dw_violation⟩

/-- Rust `CorridorController<E, H, B, D>`: corridor controller composing the four
semantics, generic over the trait implementations as in the Rust source. -/
structure CorridorController (E H B D : Type) where
  envelope : E
  host_budget : H
  eco_band : B
  dw_ceiling : D
  m_ref_kg : ℚ
  k_ref_nb : ℚ
  eta_m : ℚ
  eta_k : ℚ
  eta_w : ℚ
  eta_b : ℚ
  eta_p : ℚ
  eta_dw : ℚ

/-- Rust `CorridorController::eco_load` (Equation 3). -/
def eco_load {E H B D : Type} (c : CorridorController E H B D)
    (nodes : List NodeState) (alpha_m alpha_k : ℚ) : ℚ :=
  let m_sum := (nodes.map (·.mass_kg)).sum
  let k_sum := (nodes.map (·.karma_bytes)).sum
  let m_norm := if c.m_ref_kg > 0 then m_sum / c.m_ref_kg else 0
  let k_norm := if c.k_ref_nb > 0 then k_sum / c.k_ref_nb else 0
  alpha_m * m_norm + alpha_k * k_norm

/-- Rust `CorridorController::update_node_duty` (Equation 5): the Rust function
takes `&mut NodeState` and returns `Result<(), SafetyError>`; it is modelled
as returning the error (if any) together with the state of the node after
the call.  On any guard failure the node is returned unchanged. -/
def update_node_duty {E H B D : Type}
    [SafetyEnvelope E] [HostBudget H] [EcoBandClassifier B] [DwCeilingInvariant D]
    (c : CorridorController E H B D) (node : NodeState)
    (eco_band : EcoBand) (phi_dw : ℚ) : Option SafetyError × NodeState :=
  match SafetyEnvelope.check_envelope c.envelope node with
  | some e => (some e, node)
  | none =>
    match HostBudget.check_host_budget c.host_budget node with
    | some e => (some e, node)
    | none =>
      let m_norm := if c.m_ref_kg > 0 then node.mass_kg / c.m_ref_kg else 0
      let k_norm := if c.k_ref_nb > 0 then node.karma_bytes / c.k_ref_nb else 0
      let w := node.geo_weight
      let band_gain := EcoBandClassifier.band_gain c.eco_band eco_band
      let p_frac := HostBudget.power_fraction c.host_budget node
      let dw_violation := DwCeilingInvariant.dw_violation c.dw_ceiling phi_dw
      let u_raw := node.duty_cycle
        + c.eta_m * m_norm
        + c.eta_k * k_norm
        + c.eta_w * w
        + c.eta_b * band_gain
        - c.eta_p * p_frac
        - c.eta_dw * dw_violation
      let u_new := if u_raw < 0 then 0 else if u_raw > 1 then 1 else u_raw
      (none, { node with duty_cycle := u_new })

end CorridorSafety

/-- Returns `true` iff the first list starts with the second (helper for modelling
Rust `str::contains`). -/
def listStartsWith : List Char → List Char → Bool
  | _, [] => true
  | [], _ :: _ => false
  | a :: as, b :: bs => a = b && listStartsWith as bs

/-- Returns `true` iff the second list occurs as a contiguous subsequence of the
first (helper for modelling Rust `str::contains`). -/
def listContainsSeq : List Char → List Char → Bool
  | [], needle => needle.isEmpty
  | a :: rest, needle => listStartsWith (a :: rest) needle || listContainsSeq rest needle

/-- Rust `str::contains(pat)`: substring containment. -/
def strContains (hay needle : String) : Bool :=
  listContainsSeq hay.data needle.data

namespace BeeGuard

/-- Row schema from `src/crates/cyboair-bee-guard/src/main.rs` (`CyboAirRow`). -/
structure CyboAirRow where
  machine_id : String
  rtype : String
  location : String
  pollutant : String
  c_in : ℚ
  c_out : ℚ
  unit : String
  airflow_m3_per_s : ℚ
  dt_s : ℚ
  lambda_hazard : ℚ
  beta_nb_per_kg : ℚ
deriving DecidableEq

/-- Rust `BeeContext`: hive context for the bee-aware update. -/
structure BeeContext where
  hive_id : String
  colony_mass_kg : ℚ
  colony_mass_baseline_kg : ℚ
  sbee_min : ℚ
  kref_bee : ℚ
  alpha : ℚ
deriving DecidableEq

/-- Rust `NodeState` of the bee-guard binary. -/
structure NodeState where
  row : CyboAirRow
  mass_kg : ℚ
  air_karma_bytes : ℚ
  bee_karma_bytes : ℚ
  duty_cycle : ℚ
  sbee : ℚ
deriving DecidableEq

/-- Rust `residual_risk_ok`: EFSA-style residual-risk constraint,
`(baseline − mass) / max(baseline, 1e-6) ≤ 0.10`. -/
def residual_risk_ok (ctx : BeeContext) : Bool :=
  let delta := (ctx.colony_mass_baseline_kg - ctx.colony_mass_kg)
    / max ctx.colony_mass_baseline_kg (1/1000000)
  delta ≤ 1/10

/-- Rust `geo_weight`: simple geospatial weight from the location string. -/
def geo_weight (location : String) : ℚ :=
  if strContains location ("Apiary") || strContains location ("School") then 1
  else if strContains location ("Industrial") then 8/10
  else 1/2

/-- Rust `update_duty_cycle` (Eq. 6, bee-aware duty-cycle update): mutates only
`node.duty_cycle`; modelled as returning the updated node. -/
def update_duty_cycle (node : NodeState) (beectx : BeeContext)
    (mref kref cpower_i eta1 eta2 eta3 eta4 eta5 : ℚ) : NodeState :=
  let phi_bee : ℚ :=
    if residual_risk_ok beectx ∧ node.sbee ≥ beectx.sbee_min then 1
    else if ¬ residual_risk_ok beectx ∨ node.sbee < beectx.sbee_min then -1
    else 0
  let wi := geo_weight node.row.location
  let uraw := node.duty_cycle
    + eta1 * (node.mass_kg / max mref (1/1000000000000))
    + eta2 * (node.air_karma_bytes / max kref 1)
    + eta3 * wi
    + eta4 * phi_bee
    - eta5 * cpower_i
  { node with duty_cycle := if uraw ≤ 0 then 0 else if uraw ≥ 1 then 1 else uraw }

end BeeGuard

namespace AirBee

/-- Row schema from `src/cybo_air_bee_guard/src/main.rs` (`CyboAirRow`,
extended with bee columns). -/
structure CyboAirRow where
  machine_id : String
  rtype : String
  location : String
  pollutant : String
  cin : ℚ
  cout : ℚ
  unit : String
  airflow_m3_per_s : ℚ
  period_s : ℚ
  lambda_hazard : ℚ
  beta_nb_per_kg : ℚ
  ecoimpact_score : ℚ
  bee_flag : ℕ
  bee_weight : ℚ
  notes : String
deriving DecidableEq

/-- Rust `NodeState` of the cybo_air_bee_guard binary. -/
structure NodeState where
  row : CyboAirRow
  mass_kg : ℚ
  karma_bee : ℚ
  duty_cycle : ℚ
  emf_score : ℚ
deriving DecidableEq

/-- Rust `unit_to_kg_factor` of cybo_air_bee_guard (unit spellings `ug/m3` etc.). -/
def unit_to_kg_factor (unit : String) (temperature_k molar_mass_kg_per_mol : ℚ) : ℚ :=
  if unit = "ug/m3" then 1/1000000000
  else if unit = "mg/m3" then 1/1000000
  else if unit = "ppb" then
    molar_mass_kg_per_mol / ((83145/10000) * temperature_k) * (1/1000000000)
  else 0

/-- Rust `update_node_bee`: recomputes mass, bee karma, EMF score, bee-aware
geospatial weight and the projected duty cycle; mutates `mass_kg`,
`karma_bee`, `emf_score`, `duty_cycle`; modelled as returning the node
after the call. -/
def update_node_bee (node : NodeState)
    (temperature_k molar_mass_kg_per_mol m_ref k_ref e_ref_bee
      eta1 eta2 eta3 eta4 : ℚ) : NodeState :=
  let r := node.row
  let alpha := unit_to_kg_factor r.unit temperature_k molar_mass_kg_per_mol
  let d_c := max (r.cin - r.cout) 0
  let c_u := alpha * d_c
  let mass_kg := c_u * r.airflow_m3_per_s * r.period_s
  let lambda_bee := if r.bee_flag = 1 then r.lambda_hazard * r.bee_weight else r.lambda_hazard
  let karma_bee := lambda_bee * r.beta_nb_per_kg * mass_kg
  let emf_score := if r.bee_flag = 1 then min (r.airflow_m3_per_s / 3) 1 else 0
  let w0 : ℚ := 1/2
  let w1 := if r.bee_flag = 1 then w0 + 3/10 else w0
  let w2 := if strContains r.location ("School") ∨ strContains r.location ("Orchard")
      ∨ strContains r.location ("Garden") then w1 + 2/10 else w1
  let w_bee := w2 - min (emf_score / e_ref_bee) (1/2)
  let u_raw := node.duty_cycle
    + eta1 * (mass_kg / m_ref)
    + eta2 * (karma_bee / k_ref)
    + eta3 * w_bee
    - eta4 * emf_score
  let u := if u_raw < 0 then 0 else if u_raw > 1 then 1 else u_raw
  { node with mass_kg := mass_kg, karma_bee := karma_bee,
              emf_score := emf_score, duty_cycle := u }

end AirBee

namespace BeeGuard

/-- Rust `compute_sbee` (Eq. 4, normalized S_bee) from
`src/crates/cyboair-bee-guard/src/main.rs`:
`S = 1 − exp(clip(−α·karma_tot / max(kref,1), −50, 50))`.  Modelled over `ℝ`
because of the exponential; Rust `x.max(-50.0).min(50.0)` is
`min (max x (−50)) 50`. -/
noncomputable def compute_sbee (bee_karma_tot kref_bee alpha : ℝ) : ℝ :=
  let denom := max kref_bee 1
  let x := -alpha * (bee_karma_tot / denom)
  let x_clip := min (max x (-50)) 50
  1 - Real.exp x_clip

end BeeGuard

namespace Cybernet

/-- Rust `BeeKarma` (`src/cybernet/src/bee/mod.rs`): identity-bound trust scalar. -/
structure BeeKarma where
  val : ℚ
deriving DecidableEq

/-- Rust `BeeStressorState`: compact stressor vector. -/
structure BeeStressorState where
  hq_pest : ℚ
  h_rf : ℚ
  h_poll : ℚ
  d_h_bio : ℚ
  varroa_per_100 : ℚ
  d_thive_c : ℚ
  q_forage : ℚ
deriving DecidableEq

/-- Rust `BeeCorridorPolytope`: rows of `A`, bounds `b`, minimum admissible karma. -/
structure BeeCorridorPolytope where
  a : List (List ℚ)
  b : List ℚ
  kappa_min : ℚ
deriving DecidableEq

/-- The vector built inside `is_inside_polytope` from the stressor state
(the last entry converts foraging success into stress). -/
def stressorVec (x : BeeStressorState) : List ℚ :=
  [x.hq_pest, x.h_rf, x.h_poll, x.d_h_bio, x.varroa_per_100, x.d_thive_c, 1 - x.q_forage]

/-- The dot product `row.iter().zip(vec_x).map(|(a,v)| a*v).sum()` (zip
truncates to the shorter list, as in Rust). -/
def dotZip (row vecx : List ℚ) : ℚ :=
  ((row.zip vecx).map (fun p => p.1 * p.2)).sum

/-- Rust `BeeAdmissible::is_inside_polytope`: `false` iff some constraint row has
`a·x > b_i`. -/
def is_inside_polytope (p : BeeCorridorPolytope) (x : BeeStressorState) : Bool :=
  (p.a.zip p.b).all (fun rb => dotZip rb.1 (stressorVec x) ≤ rb.2)

/-- Rust `BeeAdmissible::is_bee_admissible`: inside the polytope and
`κ ≥ kappa_min`. -/
def is_bee_admissible (p : BeeCorridorPolytope) (x : BeeStressorState) (kappa : BeeKarma) : Bool :=
  is_inside_polytope p x && kappa.val ≥ p.kappa_min

/-- Rust `BeeKarmaEnvelope` (`src/cybernet/src/bee/mod.rs`): identity-bound
governance envelope.  `Uuid` and `DateTime<Utc>` are opaque to the core and
modelled as natural numbers. -/
structure BeeKarmaEnvelope where
  agent_id : ℕ
  corridor_id : ℕ
  kappa : BeeKarma
  last_update : ℕ
  realized_harm_score : ℚ
  predicted_harm_score : ℚ
  blood_gate_level : ℕ
deriving DecidableEq

/-- Rust `BeeTwinSnapshot` (`src/cybernet/src/bee/liability.rs`). -/
structure BeeTwinSnapshot where
  twin_id : ℕ
  corridor_id : ℕ
  t : ℕ
  vg_pred : ℚ
  vg_obs : ℚ
  dwv_pred : ℚ
  dwv_obs : ℚ
  weight_pred : ℚ
  weight_obs : ℚ
deriving DecidableEq

/-- Rust `HarmAggregation`. -/
structure HarmAggregation where
  corridor_id : ℕ
  predicted_harm : ℚ
  realized_harm : ℚ
  delta_liability : ℚ
deriving DecidableEq

/-- Per-snapshot realized harm inside the `aggregate_harm` loop. -/
def h_real (w_v w_d w_w : ℚ) (s : BeeTwinSnapshot) : ℚ :=
  w_v * |s.vg_pred - s.vg_obs| + w_d * |s.dwv_pred - s.dwv_obs|
    + w_w * |s.weight_pred - s.weight_obs|

/-- Rust `aggregate_harm`: asserts the window is non-empty (modelled as `none`),
sums per-snapshot realized harm (predicted harm is hard-coded `0.0` per
snapshot) and divides by the window length. -/
def aggregate_harm (snapshots : List BeeTwinSnapshot) (w_v w_d w_w : ℚ) :
    Option HarmAggregation :=
  match snapshots with
  | [] => none
  | s0 :: _ =>
    let realized_sum := (snapshots.map (h_real w_v w_d w_w)).sum
    let predicted_sum := (snapshots.map (fun _ => (0 : ℚ))).sum
    let n : ℚ := snapshots.length
    some { corridor_id := s0.corridor_id
           predicted_harm := predicted_sum / n
           realized_harm := realized_sum / n
           delta_liability := realized_sum / n - predicted_sum / n }

/-- The tier thresholds applied to a karma value inside
`apply_liability_to_envelope` (≥0.8→3, ≥0.6→2, ≥0.4→1, else 0). -/
def gate_level_of (k : ℚ) : ℕ :=
  if k ≥ 8/10 then 3 else if k ≥ 6/10 then 2 else if k ≥ 4/10 then 1 else 0

/-- Rust `apply_liability_to_envelope`: writes the harm scores, then (only when
`delta_liability > warn_threshold`) decays κ with floor 0, recomputes the
blood-gate level and, when `delta_liability ≥ downgrade_threshold`,
saturating-subtracts one more level.  Mutation of `&mut BeeKarmaEnvelope`
is modelled by returning the envelope after the call. -/
def apply_liability_to_envelope (env : BeeKarmaEnvelope) (harm : HarmAggregation)
    (warn_threshold downgrade_threshold karma_penalty_scale : ℚ) : BeeKarmaEnvelope :=
  let env := { env with predicted_harm_score := harm.predicted_harm,
                        realized_harm_score := harm.realized_harm }
  if harm.delta_liability ≤ warn_threshold then env
  else
    let delta_over := harm.delta_liability - warn_threshold
    let karma_delta := -karma_penalty_scale * delta_over
    let k0 := env.kappa.val + karma_delta
    let k := if k0 < 0 then 0 else k0
    let level := gate_level_of k
    let level := if harm.delta_liability ≥ downgrade_threshold then level - 1 else level
    { env with kappa := ⟨k⟩, blood_gate_level := level }

end Cybernet

namespace BeeKarmaCrate

/-- Rust `ParameterVector = [f64; 4]` from `src/cyboair-bee-karma/src/lib.rs`:
`[distance_from_hive_m, o3_concentration_ugm3, emf_intensity_vpm, duty_cycle]`. -/
structure ParameterVector where
  x0 : ℚ
  x1 : ℚ
  x2 : ℚ
  x3 : ℚ
deriving DecidableEq

/-- Rust `LinearConstraint`: a single half-space constraint `a·x + b ≤ 0`. -/
structure LinearConstraint where
  a : ParameterVector
  b : ℚ
deriving DecidableEq

/-- Rust `BeerightsPolytope`. -/
structure BeerightsPolytope where
  constraints : List LinearConstraint
deriving DecidableEq

/-- Rust `BeerightsPolytope::default_conservative`: distance ≥ 50, O₃ ≤ 80,
EMF ≤ 1.0, duty ≤ 0.3, encoded as `a·x + b ≤ 0`. -/
def default_conservative : BeerightsPolytope :=
  { constraints :=
      [ { a := ⟨-1, 0, 0, 0⟩, b := 50 },
        { a := ⟨0, 1, 0, 0⟩, b := -80 },
        { a := ⟨0, 0, 1, 0⟩, b := -1 },
        { a := ⟨0, 0, 0, 1⟩, b := -3/10 } ] }

/-- The affine form `a·x + b` of one constraint. -/
def constraintDot (c : LinearConstraint) (x : ParameterVector) : ℚ :=
  c.a.x0 * x.x0 + c.a.x1 * x.x1 + c.a.x2 * x.x2 + c.a.x3 * x.x3 + c.b

/-- Rust `BeerightsPolytope::is_inside`: all `a·x + b ≤ tol`. -/
def is_inside (p : BeerightsPolytope) (x : ParameterVector) (tol : ℚ) : Bool :=
  p.constraints.all (fun c => constraintDot c x ≤ tol)

/-- Rust `BeeEnvSample`: raw environmental inputs to Beekarma. -/
structure BeeEnvSample where
  distance_from_hive_m : ℚ
  o3_ugm3 : ℚ
  aqhi : ℚ
  pm25_ugm3 : ℚ
  emf_vpm : ℚ
  pesticide_index : ℚ
deriving DecidableEq

/-- Rust `f64::clamp(lo, hi)`. -/
def clampQ (v lo hi : ℚ) : ℚ := min (max v lo) hi

/-- Rust `enforce_bee_rights`: clamps the proposed duty cycle to [0,1], builds the
parameter vector, and on polytope membership (tolerance `1e-9`) returns
`(true, dc_clamped)`, otherwise `(false, 0.0)` (hard de-rate). -/
def enforce_bee_rights (env : BeeEnvSample) (proposed_duty_cycle : ℚ)
    (polytope : BeerightsPolytope) : Bool × ℚ :=
  let dc_clamped := clampQ proposed_duty_cycle 0 1
  let x : ParameterVector :=
    ⟨env.distance_from_hive_m, env.o3_ugm3, env.emf_vpm, dc_clamped⟩
  if is_inside polytope x (1/1000000000) then (true, dc_clamped) else (false, 0)

end BeeKarmaCrate

namespace CorridorCore

/-- Rust `MetricFamily` from `src/cybo-corridor-core/src/lib.rs`. -/
inductive MetricFamily where
  | BeeThermal
  | BeeChem
  | BeeEMF
  | BeeNoise
  | MarineThermal
  | MarineSalinity
  | MarineShear
  | MarineNoise
  | UrbanHeatIndex
  | UrbanWBGT
  | UrbanNOx
deriving DecidableEq

/-- Rust `BeeBand`: bee corridor band with normalized indices. -/
structure BeeBand where
  family : MetricFamily
  host_budget : ℚ
  eco_band : ℚ
  dw_ceiling : ℚ
deriving DecidableEq

/-- Rust `BeeEnvelope`: minimal bee envelope (trace id is opaque, modelled as ℕ). -/
structure BeeEnvelope where
  band : BeeBand
  trace_id : ℕ
deriving DecidableEq

/-- Rust `BeeCorridorInvariant`: safe residual threshold. -/
structure BeeCorridorInvariant where
  v_safe : ℚ
deriving DecidableEq

/-- Rust `BeeCorridorInvariant::residual`: quadratic residual over the
non-negative parts of the normalized indices. -/
def residual (_inv : BeeCorridorInvariant) (sample : BeeEnvelope) : ℚ :=
  let hb := max sample.band.host_budget 0
  let eco := max sample.band.eco_band 0
  let dw := max sample.band.dw_ceiling 0
  hb * hb + eco * eco + dw * dw

/-- Rust `BeeCorridorInvariant::holds`: `residual ≤ v_safe`. -/
def inv_holds (inv : BeeCorridorInvariant) (sample : BeeEnvelope) : Bool :=
  residual inv sample ≤ inv.v_safe

/-- Rust `HostBudgetEnvelope::is_within_envelope` instantiated at `BeeEnvelope`:
all three indices ≤ 1 and the invariant holds. -/
def is_within_envelope (env : BeeEnvelope) (inv : BeeCorridorInvariant) : Bool :=
  env.band.host_budget ≤ 1 && env.band.eco_band ≤ 1 && env.band.dw_ceiling ≤ 1
    && inv_holds inv env

/-- Rust `BeeState`: bee state inside an envelope. -/
structure BeeState where
  envelope : BeeEnvelope
  hb_score : ℚ
deriving DecidableEq

/-- Rust `BeeHysteresisRule::next_state`: hold the current state when the
proposed envelope has `eco ≤ 0`, violates `host_budget ≤ 0.85·eco_band`,
or falls outside the envelope; otherwise accept the proposal. -/
def next_state (current proposed : BeeState) (inv : BeeCorridorInvariant) : BeeState :=
  let env := proposed.envelope
  let hb := env.band.host_budget
  let eco := env.band.eco_band
  if eco ≤ 0 then current
  else if hb > 85/100 * eco then current
  else if ¬ is_within_envelope env inv then current
  else proposed

end CorridorCore

/-! ## Helper lemmas -/

/-- The strict-comparison clamp `if x < 0 then 0 else if x > 1 then 1 else x`
used by the corridor controller and the bee-aware update lands in `[0,1]`. -/
theorem clamp_lt_bounds (x : ℚ) :
    0 ≤ (if x < 0 then (0:ℚ) else if x > 1 then 1 else x) ∧
      (if x < 0 then (0:ℚ) else if x > 1 then 1 else x) ≤ 1 := by
  split_ifs <;> constructor <;> linarith

/-- The non-strict clamp `if x ≤ 0 then 0 else if x ≥ 1 then 1 else x` used by
the hive bee-guard update lands in `[0,1]`. -/
theorem clamp_le_bounds (x : ℚ) :
    0 ≤ (if x ≤ 0 then (0:ℚ) else if x ≥ 1 then 1 else x) ∧
      (if x ≤ 0 then (0:ℚ) else if x ≥ 1 then 1 else x) ≤ 1 := by
  split_ifs <;> constructor <;> linarith

/-! ## Claims -/

/-- Claim C1. For every node state and every configuration of gains, reference
scales, and penalty terms, whenever the duty-cycle update law commits a new
duty cycle, the committed value lies in `[0,1]`: for the generic
`CorridorController::update_node_duty` (whenever it commits, i.e. returns no
error) and unconditionally for both bee-aware variants
(`update_duty_cycle` and `update_node_bee`), which always commit. -/
theorem claim_C1 :
    (∀ (E H B D : Type) (_iE : CorridorSafety.SafetyEnvelope E)
        (_iH : CorridorSafety.HostBudget H) (_iB : CorridorSafety.EcoBandClassifier B)
        (_iD : CorridorSafety.DwCeilingInvariant D)
        (c : CorridorSafety.CorridorController E H B D)
        (node : CorridorSafety.NodeState) (band : CorridorSafety.EcoBand) (phi_dw : ℚ),
        (CorridorSafety.update_node_duty c node band phi_dw).1 = none →
        0 ≤ (CorridorSafety.update_node_duty c node band phi_dw).2.duty_cycle ∧
          (CorridorSafety.update_node_duty c node band phi_dw).2.duty_cycle ≤ 1)
  ∧ (∀ (node : BeeGuard.NodeState) (ctx : BeeGuard.BeeContext)
        (mref kref cpower eta1 eta2 eta3 eta4 eta5 : ℚ),
        0 ≤ (BeeGuard.update_duty_cycle node ctx mref kref cpower
              eta1 eta2 eta3 eta4 eta5).duty_cycle ∧
          (BeeGuard.update_duty_cycle node ctx mref kref cpower
              eta1 eta2 eta3 eta4 eta5).duty_cycle ≤ 1)
  ∧ (∀ (node : AirBee.NodeState) (t m mr kr er e1 e2 e3 e4 : ℚ),
        0 ≤ (AirBee.update_node_bee node t m mr kr er e1 e2 e3 e4).duty_cycle ∧
          (AirBee.update_node_bee node t m mr kr er e1 e2 e3 e4).duty_cycle ≤ 1) := by
  refine ⟨?_, ?_, ?_⟩
  · intro E H B D _iE _iH _iB _iD c node band phi_dw h
    unfold CorridorSafety.update_node_duty at h ⊢
    cases he : CorridorSafety.SafetyEnvelope.check_envelope c.envelope node with
    | some e => simp [he] at h
    | none =>
      cases hh : CorridorSafety.HostBudget.check_host_budget c.host_budget node with
      | some e => simp [he, hh] at h
      | none =>
        simp only [he, hh]
        exact clamp_lt_bounds _
  · intro node ctx mref kref cpower eta1 eta2 eta3 eta4 eta5
    unfold BeeGuard.update_duty_cycle
    exact clamp_le_bounds _
  · intro node t m mr kr er e1 e2 e3 e4
    unfold AirBee.update_node_bee
    exact clamp_lt_bounds _

/-- Claim C4. If the safety-envelope check or the host-budget check fails,
`update_node_duty` surfaces exactly that guard's error and returns the node
unchanged; and in every case the update changes nothing but (possibly) the
duty cycle. -/
theorem claim_C4 :
    ∀ (E H B D : Type) (_iE : CorridorSafety.SafetyEnvelope E)
      (_iH : CorridorSafety.HostBudget H) (_iB : CorridorSafety.EcoBandClassifier B)
      (_iD : CorridorSafety.DwCeilingInvariant D)
      (c : CorridorSafety.CorridorController E H B D)
      (node : CorridorSafety.NodeState) (band : CorridorSafety.EcoBand) (phi_dw : ℚ),
      (∀ e, CorridorSafety.SafetyEnvelope.check_envelope c.envelope node = some e →
        CorridorSafety.update_node_duty c node band phi_dw = (some e, node))
    ∧ (∀ e, CorridorSafety.SafetyEnvelope.check_envelope c.envelope node = none →
        CorridorSafety.HostBudget.check_host_budget c.host_budget node = some e →
        CorridorSafety.update_node_duty c node band phi_dw = (some e, node))
    ∧ ((CorridorSafety.update_node_duty c node band phi_dw).1 ≠ none →
        (CorridorSafety.update_node_duty c node band phi_dw).2 = node)
    ∧ (CorridorSafety.update_node_duty c node band phi_dw).2.row = node.row
    ∧ (CorridorSafety.update_node_duty c node band phi_dw).2.mass_kg = node.mass_kg
    ∧ (CorridorSafety.update_node_duty c node band phi_dw).2.karma_bytes = node.karma_bytes
    ∧ (CorridorSafety.update_node_duty c node band phi_dw).2.power_w = node.power_w
    ∧ (CorridorSafety.update_node_duty c node band phi_dw).2.geo_weight = node.geo_weight := by
  intro E H B D _iE _iH _iB _iD c node band phi_dw
  unfold CorridorSafety.update_node_duty
  cases he : CorridorSafety.SafetyEnvelope.check_envelope c.envelope node with
  | some e => simp [he]
  | none =>
    cases hh : CorridorSafety.HostBudget.check_host_budget c.host_budget node with
    | some e => simp [he, hh]
    | none => simp [he, hh]

/-- Claim C2. For the cybernet admissibility check: a stressor vector strictly
inside every half-space together with `κ ≥ kappa_min` is admissible, and a
vector violating any single constraint by more than a (non-negative)
tolerance is inadmissible; for the bee-karma crate's `is_inside` with
explicit tolerance: strict satisfaction of every affine constraint
(`a·x + b < 0`) gives `true`, and any constraint with `a·x + b > tol`
gives `false`. -/
theorem claim_C2 :
    (∀ (p : Cybernet.BeeCorridorPolytope) (x : Cybernet.BeeStressorState)
        (kappa : Cybernet.BeeKarma),
        (∀ rb ∈ p.a.zip p.b, Cybernet.dotZip rb.1 (Cybernet.stressorVec x) < rb.2) →
        kappa.val ≥ p.kappa_min →
        Cybernet.is_bee_admissible p x kappa = true)
  ∧ (∀ (p : Cybernet.BeeCorridorPolytope) (x : Cybernet.BeeStressorState)
        (kappa : Cybernet.BeeKarma) (tol : ℚ), 0 ≤ tol →
        (∃ rb ∈ p.a.zip p.b, Cybernet.dotZip rb.1 (Cybernet.stressorVec x) > rb.2 + tol) →
        Cybernet.is_bee_admissible p x kappa = false)
  ∧ (∀ (poly : BeeKarmaCrate.BeerightsPolytope) (x : BeeKarmaCrate.ParameterVector)
        (tol : ℚ), 0 ≤ tol →
        (∀ c ∈ poly.constraints, BeeKarmaCrate.constraintDot c x < 0) →
        BeeKarmaCrate.is_inside poly x tol = true)
  ∧ (∀ (poly : BeeKarmaCrate.BeerightsPolytope) (x : BeeKarmaCrate.ParameterVector)
        (tol : ℚ),
        (∃ c ∈ poly.constraints, BeeKarmaCrate.constraintDot c x > tol) →
        BeeKarmaCrate.is_inside poly x tol = false) := by
  refine ⟨?_, ?_, ?_, ?_⟩
  · intro p x kappa hstrict hk
    unfold Cybernet.is_bee_admissible Cybernet.is_inside_polytope
    rw [Bool.and_eq_true, List.all_eq_true]
    refine ⟨fun rb hrb => ?_, by simpa using hk⟩
    simpa using le_of_lt (hstrict rb hrb)
  · intro p x kappa tol htol ⟨rb, hrb, hviol⟩
    unfold Cybernet.is_bee_admissible Cybernet.is_inside_polytope
    apply Bool.and_eq_false_iff.mpr
    left
    apply Bool.eq_false_iff.mpr
    intro hall
    rw [List.all_eq_true] at hall
    have := hall rb hrb
    simp only [decide_eq_true_eq] at this
    linarith
  · intro poly x tol htol hstrict
    unfold BeeKarmaCrate.is_inside
    rw [List.all_eq_true]
    intro c hc
    simpa using le_of_lt (lt_of_lt_of_le (hstrict c hc) htol)
  · intro poly x tol ⟨c, hc, hviol⟩
    unfold BeeKarmaCrate.is_inside
    apply Bool.eq_false_iff.mpr
    intro hall
    rw [List.all_eq_true] at hall
    have := hall c hc
    simp only [decide_eq_true_eq] at this
    linarith

/-- A small concrete cybernet polytope used by the C2 witness. -/
def witnessPolytope : Cybernet.BeeCorridorPolytope :=
  { a := [[1, 0, 0, 0, 0, 0, 0], [0, 1, 1, 0, 0, 0, 0]], b := [1, 2], kappa_min := 1/2 }

/-- A small concrete benign stressor state used by the C2 witness. -/
def witnessStressor : Cybernet.BeeStressorState :=
  ⟨1/10, 1/10, 1/10, 0, 0, 0, 9/10⟩

/-- Witness for C2: the benign stressor state with κ = 0.6 is admissible for
the concrete polytope, and the conservative default box rejects a vector
whose first constraint is violated beyond tolerance. -/
theorem claim_C2_witness :
    Cybernet.is_bee_admissible witnessPolytope witnessStressor ⟨6/10⟩ = true ∧
    BeeKarmaCrate.is_inside BeeKarmaCrate.default_conservative
      ⟨10, 120, 2, 8/10⟩ (1/1000000000) = false :=
  ⟨claim_C2.1 witnessPolytope witnessStressor ⟨6/10⟩
     (by norm_num [witnessPolytope, witnessStressor, Cybernet.dotZip, Cybernet.stressorVec])
     (by norm_num [witnessPolytope]),
   claim_C2.2.2.2 BeeKarmaCrate.default_conservative ⟨10, 120, 2, 8/10⟩ (1/1000000000)
     ⟨{ a := ⟨-1, 0, 0, 0⟩, b := 50 },
       by norm_num [BeeKarmaCrate.default_conservative],
       by norm_num [BeeKarmaCrate.constraintDot]⟩⟩

/-- Claim C3. Whenever the derived parameter vector (with the proposed duty
cycle clamped to `[0,1]`) lies outside the rights polytope,
`enforce_bee_rights` returns verdict `false` with enforced duty cycle
exactly `0` (full stand-down); in particular the scenario-C vector
(distance 10 m, pollutant 120, EMF 2.0, duty 0.8) against the conservative
default polytope is inadmissible with enforced duty cycle `0`. -/
theorem claim_C3 :
    (∀ (env : BeeKarmaCrate.BeeEnvSample) (dc : ℚ)
        (poly : BeeKarmaCrate.BeerightsPolytope),
        BeeKarmaCrate.is_inside poly
          ⟨env.distance_from_hive_m, env.o3_ugm3, env.emf_vpm, BeeKarmaCrate.clampQ dc 0 1⟩
          (1/1000000000) = false →
        BeeKarmaCrate.enforce_bee_rights env dc poly = (false, 0))
  ∧ BeeKarmaCrate.enforce_bee_rights ⟨10, 120, 0, 0, 2, 0⟩ (8/10)
      BeeKarmaCrate.default_conservative = (false, 0) := by
  constructor
  · intro env dc poly hout
    unfold BeeKarmaCrate.enforce_bee_rights
    simp only [hout, Bool.false_eq_true, if_false]
  · norm_num [BeeKarmaCrate.enforce_bee_rights, BeeKarmaCrate.is_inside,
      BeeKarmaCrate.constraintDot, BeeKarmaCrate.default_conservative, BeeKarmaCrate.clampQ]

/-- Witness for C3: the scenario-C environment sample drives the generic
stand-down branch of the theorem. -/
theorem claim_C3_witness :
    BeeKarmaCrate.enforce_bee_rights ⟨10, 120, 0, 0, 2, 0⟩ (8/10)
      BeeKarmaCrate.default_conservative = (false, 0) :=
  claim_C3.1 ⟨10, 120, 0, 0, 2, 0⟩ (8/10) BeeKarmaCrate.default_conservative
    (by norm_num [BeeKarmaCrate.is_inside, BeeKarmaCrate.constraintDot,
      BeeKarmaCrate.default_conservative, BeeKarmaCrate.clampQ])

/-- Concrete corridor controller (rectangular envelope with a constant
331 m altitude lookup, simple host budget, threshold eco-band, simple DW
ceiling) used by the C1 and C4 witnesses. -/
def demoController : CorridorSafety.CorridorController CorridorSafety.RectSafetyEnvelope
    CorridorSafety.SimpleHostBudget CorridorSafety.ThresholdEcoBand
    CorridorSafety.SimpleDwCeiling :=
  { envelope := ⟨0, 1, 5, 600, 7/10, 1, fun _ => 331⟩
    host_budget := ⟨100, 100000, 60⟩
    eco_band := ⟨1/2, 1, 1/100, 2/100, 3/100⟩
    dw_ceiling := ⟨10⟩
    m_ref_kg := 1, k_ref_nb := 1
    eta_m := 1/10, eta_k := 1/10, eta_w := 1/10
    eta_b := 1/10, eta_p := 1/10, eta_dw := 1/10 }

/-- Concrete in-envelope node used by the C1 witness. -/
def demoNode : CorridorSafety.NodeState :=
  { row := ⟨"m1", "scrubber", "PhoenixApiary", "PM2.5", 40, 28, "ugm3", 3, 3600, 3,
      500000000, 92/100⟩
    mass_kg := 1/10000, karma_bytes := 1/10, duty_cycle := 1/2, power_w := 50,
    geo_weight := 1 }

/-- Witness for C1: the concrete controller commits an update for the
in-envelope node, and the committed duty cycle is inside `[0,1]`. -/
theorem claim_C1_witness :
    (CorridorSafety.update_node_duty demoController demoNode .Green 0).1 = none ∧
    (0 ≤ (CorridorSafety.update_node_duty demoController demoNode .Green 0).2.duty_cycle ∧
      (CorridorSafety.update_node_duty demoController demoNode .Green 0).2.duty_cycle ≤ 1) :=
  ⟨by norm_num [CorridorSafety.update_node_duty, demoController, demoNode,
      CorridorSafety.instRectEnvelope, CorridorSafety.rect_check_envelope,
      CorridorSafety.instSimpleBudget, CorridorSafety.simple_check_host_budget],
   claim_C1.1 _ _ _ _ _ _ _ _ demoController demoNode .Green 0
     (by norm_num [CorridorSafety.update_node_duty, demoController, demoNode,
        CorridorSafety.instRectEnvelope, CorridorSafety.rect_check_envelope,
        CorridorSafety.instSimpleBudget, CorridorSafety.simple_check_host_budget])⟩

/-- Concrete node whose duty cycle `2` is outside the `[0,1]` envelope,
used by the C4 witness. -/
def demoBadNode : CorridorSafety.NodeState :=
  { demoNode with duty_cycle := 2 }

/-- Witness for C4: for the out-of-envelope node the update surfaces the
specific duty-cycle envelope violation and returns the node unchanged. -/
theorem claim_C4_witness :
    CorridorSafety.update_node_duty demoController demoBadNode .Green 0 =
      (some (.EnvelopeViolation ("duty_cycle out of bounds")), demoBadNode) :=
  (claim_C4 _ _ _ _ _ _ _ _ demoController demoBadNode .Green 0).1
    (.EnvelopeViolation ("duty_cycle out of bounds"))
    (by norm_num [demoController, demoBadNode, demoNode,
      CorridorSafety.instRectEnvelope, CorridorSafety.rect_check_envelope])

/-- Helper: above the warn threshold the post-update κ equals
`max 0 (κ_old − scale·(Δ − warn))`. -/
theorem apply_liability_kappa_gt (env : Cybernet.BeeKarmaEnvelope)
    (harm : Cybernet.HarmAggregation) (warn downgrade scale : ℚ)
    (h : harm.delta_liability > warn) :
    (Cybernet.apply_liability_to_envelope env harm warn downgrade scale).kappa.val
      = max 0 (env.kappa.val - scale * (harm.delta_liability - warn)) := by
  unfold Cybernet.apply_liability_to_envelope
  rw [if_neg (not_le.mpr h)]
  have harith : env.kappa.val + -scale * (harm.delta_liability - warn)
      = env.kappa.val - scale * (harm.delta_liability - warn) := by ring
  simp only [harith]
  split_ifs with hneg
  · exact (max_eq_left hneg.le).symm
  · exact (max_eq_right (not_lt.mp hneg)).symm

/-- Claim C5, amended. If `delta_liability ≤ warn_threshold` the liability
update leaves κ and the access tier unchanged; otherwise
`κ_new = max(0, κ_old − scale·(Δ − warn))` and the tier is recomputed from
κ_new via the fixed thresholds, with one extra saturating step down when
`Δ ≥ downgrade_threshold`; and — amended: for **non-negative** penalty
scale — κ_new is monotone non-increasing in `delta_liability` above the
warn threshold (for a negative scale the code increases κ with Δ, see the
counterexample). -/
theorem claim_C5 :
    ∀ (env : Cybernet.BeeKarmaEnvelope) (harm : Cybernet.HarmAggregation)
      (warn downgrade scale : ℚ),
      (harm.delta_liability ≤ warn →
        (Cybernet.apply_liability_to_envelope env harm warn downgrade scale).kappa
            = env.kappa ∧
          (Cybernet.apply_liability_to_envelope env harm warn downgrade
              scale).blood_gate_level = env.blood_gate_level)
    ∧ (harm.delta_liability > warn →
        (Cybernet.apply_liability_to_envelope env harm warn downgrade scale).kappa.val
            = max 0 (env.kappa.val - scale * (harm.delta_liability - warn)) ∧
          (Cybernet.apply_liability_to_envelope env harm warn downgrade
              scale).blood_gate_level
            = (if harm.delta_liability ≥ downgrade then
                Cybernet.gate_level_of
                  (max 0 (env.kappa.val - scale * (harm.delta_liability - warn))) - 1
              else
                Cybernet.gate_level_of
                  (max 0 (env.kappa.val - scale * (harm.delta_liability - warn)))))
    ∧ (∀ harm1 harm2 : Cybernet.HarmAggregation, 0 ≤ scale →
        warn < harm1.delta_liability →
        harm1.delta_liability ≤ harm2.delta_liability →
        (Cybernet.apply_liability_to_envelope env harm2 warn downgrade scale).kappa.val
          ≤ (Cybernet.apply_liability_to_envelope env harm1 warn downgrade
              scale).kappa.val) := by
  intro env harm warn downgrade scale
  refine ⟨?_, ?_, ?_⟩
  · intro h
    unfold Cybernet.apply_liability_to_envelope
    rw [if_pos h]
    exact ⟨rfl, rfl⟩
  · intro h
    refine ⟨apply_liability_kappa_gt env harm warn downgrade scale h, ?_⟩
    unfold Cybernet.apply_liability_to_envelope
    rw [if_neg (not_le.mpr h)]
    have harith : env.kappa.val + -scale * (harm.delta_liability - warn)
        = env.kappa.val - scale * (harm.delta_liability - warn) := by ring
    simp only [harith]
    split_ifs with hge hlt hlt
    · rw [max_eq_left hlt.le]
    · rw [max_eq_right (not_lt.mp hlt)]
    · rw [max_eq_left hlt.le]
    · rw [max_eq_right (not_lt.mp hlt)]
  · intro harm1 harm2 hscale h1 h12
    rw [apply_liability_kappa_gt env harm1 warn downgrade scale h1,
      apply_liability_kappa_gt env harm2 warn downgrade scale (lt_of_lt_of_le h1 h12)]
    apply max_le_max (le_refl 0)
    have : scale * (harm1.delta_liability - warn) ≤ scale * (harm2.delta_liability - warn) :=
      mul_le_mul_of_nonneg_left (by linarith) hscale
    linarith

/-- Envelope with κ = 0.5 used by the C5 counterexample and witness. -/
def cexEnv : Cybernet.BeeKarmaEnvelope := ⟨0, 0, ⟨1/2⟩, 0, 0, 0, 1⟩

/-- Harm aggregation with `delta_liability = 1`. -/
def cexHarm1 : Cybernet.HarmAggregation := ⟨0, 0, 1, 1⟩

/-- Harm aggregation with `delta_liability = 2`. -/
def cexHarm2 : Cybernet.HarmAggregation := ⟨0, 0, 2, 2⟩

/-- Counterexample for C5 as frozen: it quantifies over *every* penalty
scale, but with `scale = −1`, `warn = 0`, κ_old = 0.5 the update yields
κ = 1.5 at Δ = 1 and κ = 2.5 at Δ = 2 — κ_new strictly *increases* with
`delta_liability` above the warn threshold. -/
theorem claim_C5_counterexample :
    (0:ℚ) < cexHarm1.delta_liability ∧
    cexHarm1.delta_liability ≤ cexHarm2.delta_liability ∧
    ¬ ((Cybernet.apply_liability_to_envelope cexEnv cexHarm2 0 10 (-1)).kappa.val
        ≤ (Cybernet.apply_liability_to_envelope cexEnv cexHarm1 0 10 (-1)).kappa.val) := by
  refine ⟨by norm_num [cexHarm1], by norm_num [cexHarm1, cexHarm2], ?_⟩
  norm_num [Cybernet.apply_liability_to_envelope, cexEnv, cexHarm1, cexHarm2]

/-- Harm aggregation with `delta_liability = 0.2` (Scenario-D-like). -/
def wHarm : Cybernet.HarmAggregation := ⟨0, 0, 2/10, 2/10⟩

/-- Witness for C5: applying the update with warn threshold 0.05, penalty
scale 1 and Δ = 0.2 > warn realizes the amended decay-and-retier law. -/
theorem claim_C5_witness :
    wHarm.delta_liability > 1/20 ∧
    ((Cybernet.apply_liability_to_envelope cexEnv wHarm (1/20) 10 1).kappa.val
        = max 0 (cexEnv.kappa.val - 1 * (wHarm.delta_liability - 1/20)) ∧
      (Cybernet.apply_liability_to_envelope cexEnv wHarm (1/20) 10 1).blood_gate_level
        = (if wHarm.delta_liability ≥ 10 then
            Cybernet.gate_level_of
              (max 0 (cexEnv.kappa.val - 1 * (wHarm.delta_liability - 1/20))) - 1
          else
            Cybernet.gate_level_of
              (max 0 (cexEnv.kappa.val - 1 * (wHarm.delta_liability - 1/20))))) :=
  ⟨by norm_num [wHarm],
   (claim_C5 cexEnv wHarm (1/20) 10 1).2.1 (by norm_num [wHarm])⟩

/-- Helper: `compute_sbee` unfolded (the `let` chain inlined). -/
theorem compute_sbee_eq (bee_karma_tot kref_bee alpha : ℝ) :
    BeeGuard.compute_sbee bee_karma_tot kref_bee alpha
      = 1 - Real.exp (min (max (-alpha * (bee_karma_tot / max kref_bee 1)) (-50)) 50) := rfl

/-- Claim C6. The clamped risk normalizer
`S = 1 − exp(clip(−α·karma_total / max(kref,1), −50, 50))` is monotone
non-decreasing in `karma_total` for fixed `α > 0` and `kref`, equals `0`
at `karma_total = 0`, and for every positive `karma_total` lies in `[0,1)`
— it never reaches `1`. -/
theorem claim_C6 :
    (∀ (alpha kref k1 k2 : ℝ), 0 < alpha → k1 ≤ k2 →
        BeeGuard.compute_sbee k1 kref alpha ≤ BeeGuard.compute_sbee k2 kref alpha)
  ∧ (∀ (alpha kref : ℝ), BeeGuard.compute_sbee 0 kref alpha = 0)
  ∧ (∀ (alpha kref kt : ℝ), 0 < alpha → 0 < kt →
        0 ≤ BeeGuard.compute_sbee kt kref alpha ∧
          BeeGuard.compute_sbee kt kref alpha < 1) := by
  refine ⟨?_, ?_, ?_⟩
  · intro alpha kref k1 k2 ha hk
    rw [compute_sbee_eq, compute_sbee_eq]
    have hd : (0:ℝ) < max kref 1 := lt_of_lt_of_le one_pos (le_max_right _ _)
    have hdiv : k1 / max kref 1 ≤ k2 / max kref 1 := by gcongr
    have hx : -alpha * (k2 / max kref 1) ≤ -alpha * (k1 / max kref 1) :=
      mul_le_mul_of_nonpos_left hdiv (by linarith)
    have hclip : min (max (-alpha * (k2 / max kref 1)) (-50)) 50
        ≤ min (max (-alpha * (k1 / max kref 1)) (-50)) 50 :=
      min_le_min (max_le_max hx (le_refl _)) (le_refl _)
    have := Real.exp_le_exp.mpr hclip
    linarith
  · intro alpha kref
    rw [compute_sbee_eq, zero_div, mul_zero]
    rw [max_eq_left (by norm_num : (-50:ℝ) ≤ 0), min_eq_left (by norm_num : (0:ℝ) ≤ 50)]
    rw [Real.exp_zero]
    ring
  · intro alpha kref kt ha hkt
    rw [compute_sbee_eq]
    have hd : (0:ℝ) < max kref 1 := lt_of_lt_of_le one_pos (le_max_right _ _)
    have hx : -alpha * (kt / max kref 1) < 0 := by
      have := mul_pos ha (div_pos hkt hd)
      linarith
    have hclip : min (max (-alpha * (kt / max kref 1)) (-50)) 50 ≤ 0 :=
      le_trans (min_le_left _ _) (max_le hx.le (by norm_num))
    have hle1 : Real.exp (min (max (-alpha * (kt / max kref 1)) (-50)) 50) ≤ 1 :=
      Real.exp_le_one_iff.mpr hclip
    have hpos := Real.exp_pos (min (max (-alpha * (kt / max kref 1)) (-50)) 50)
    constructor <;> linarith

/-- Witness for C6: at `α = kref = karma_total = 1` the normalizer value
lies in `[0,1)`, and monotonicity applies between inputs 1 and 2. -/
theorem claim_C6_witness :
    (0 ≤ BeeGuard.compute_sbee 1 1 1 ∧ BeeGuard.compute_sbee 1 1 1 < 1) ∧
    BeeGuard.compute_sbee 1 1 1 ≤ BeeGuard.compute_sbee 2 1 1 :=
  ⟨claim_C6.2.2 1 1 1 one_pos one_pos,
   claim_C6.1 1 1 1 2 one_pos one_le_two⟩

/-- Helper: `compute_mass_kg` unfolded (the `let` chain inlined). -/
theorem compute_mass_kg_eq (row : CorridorSafety.CorridorRow) (t m : ℚ) :
    CorridorSafety.compute_mass_kg row t m
      = CorridorSafety.unit_to_kg_factor row.unit t m * max (row.cin - row.cout) 0
          * row.airflow_m3_per_s * row.period_s := rfl

/-- Claim C7, amended. The mass estimator multiplies `max(Cin−Cout, 0)` by
the unit factor (1e-9 for `ugm3`, 1e-6 for `mgm3`, `M/(R·T)·1e-9` for
`ppb`, `0` for any other tag), the airflow and the sampling period; and —
amended: for non-negative airflow, period and molar mass and positive
temperature — the returned mass is ≥ 0 (for a negative airflow or period
the code returns a negative mass, see the counterexample). -/
theorem claim_C7 :
    (∀ (row : CorridorSafety.CorridorRow) (t m : ℚ),
        CorridorSafety.compute_mass_kg row t m =
          max (row.cin - row.cout) 0 * CorridorSafety.unit_to_kg_factor row.unit t m
            * row.airflow_m3_per_s * row.period_s)
  ∧ (∀ t m : ℚ, CorridorSafety.unit_to_kg_factor ("ugm3") t m = 1/1000000000)
  ∧ (∀ t m : ℚ, CorridorSafety.unit_to_kg_factor ("mgm3") t m = 1/1000000)
  ∧ (∀ t m : ℚ, CorridorSafety.unit_to_kg_factor ("ppb") t m
        = m / ((83145/10000) * t) * (1/1000000000))
  ∧ (∀ (u : String) (t m : ℚ), u ≠ "ugm3" → u ≠ "mgm3" → u ≠ "ppb" →
        CorridorSafety.unit_to_kg_factor u t m = 0)
  ∧ (∀ (row : CorridorSafety.CorridorRow) (t m : ℚ), 0 < t → 0 ≤ m →
        0 ≤ row.airflow_m3_per_s → 0 ≤ row.period_s →
        0 ≤ CorridorSafety.compute_mass_kg row t m) := by
  refine ⟨?_, ?_, ?_, ?_, ?_, ?_⟩
  · intro row t m
    rw [compute_mass_kg_eq]
    ring
  · intro t m
    simp [CorridorSafety.unit_to_kg_factor]
  · intro t m
    simp [CorridorSafety.unit_to_kg_factor]
  · intro t m
    simp [CorridorSafety.unit_to_kg_factor]
  · intro u t m h1 h2 h3
    simp [CorridorSafety.unit_to_kg_factor, h1, h2, h3]
  · intro row t m ht hm haf hp
    have halpha : 0 ≤ CorridorSafety.unit_to_kg_factor row.unit t m := by
      unfold CorridorSafety.unit_to_kg_factor
      split_ifs
      · norm_num
      · norm_num
      · exact mul_nonneg (div_nonneg hm (mul_nonneg (by norm_num) ht.le)) (by norm_num)
      · exact le_refl 0
    rw [compute_mass_kg_eq]
    exact mul_nonneg (mul_nonneg (mul_nonneg halpha (le_max_right _ _)) haf) hp

/-- Row with negative airflow used by the C7 counterexample. -/
def cexRow : CorridorSafety.CorridorRow :=
  ⟨"m1", "scrubber", "loc", "PM2.5", 2, 1, "ugm3", -1, 1, 1, 1, 1⟩

/-- Counterexample for C7 as frozen: the claim asserts the returned mass is
*always* ≥ 0, but with airflow `−1 m³/s` (and positive concentration drop)
`compute_mass_kg` returns `−1e-9 < 0`; the repository's own `validate_row`
treats such negative mass as an error, confirming it is reachable. -/
theorem claim_C7_counterexample :
    CorridorSafety.compute_mass_kg cexRow 300 (48/1000) < 0 := by
  rw [compute_mass_kg_eq]
  norm_num [CorridorSafety.unit_to_kg_factor, cexRow]

/-- Witness for C7: for the in-envelope demo row (airflow 3 m³/s, period
3600 s) at 300 K and molar mass 0.048 kg/mol the mass is non-negative. -/
theorem claim_C7_witness :
    (0:ℚ) < 300 ∧ (0:ℚ) ≤ 48/1000 ∧ 0 ≤ demoNode.row.airflow_m3_per_s ∧
    0 ≤ demoNode.row.period_s ∧
    0 ≤ CorridorSafety.compute_mass_kg demoNode.row 300 (48/1000) :=
  ⟨by norm_num, by norm_num, by norm_num [demoNode], by norm_num [demoNode],
   claim_C7.2.2.2.2.2 demoNode.row 300 (48/1000) (by norm_num) (by norm_num)
     (by norm_num [demoNode]) (by norm_num [demoNode])⟩

/-- Claim C8. The bee hysteresis transition is idempotent on invariant-
satisfying fixed points (`next_state s s inv = s`), and is a pure
hold-or-accept rule: for any current and proposed state the result is
either the current state or the proposed one. -/
theorem claim_C8 :
    (∀ (s : CorridorCore.BeeState) (inv : CorridorCore.BeeCorridorInvariant),
        CorridorCore.inv_holds inv s.envelope = true →
        CorridorCore.next_state s s inv = s)
  ∧ (∀ (c p : CorridorCore.BeeState) (inv : CorridorCore.BeeCorridorInvariant),
        CorridorCore.next_state c p inv = c ∨ CorridorCore.next_state c p inv = p) := by
  constructor
  · intro s inv h
    unfold CorridorCore.next_state
    dsimp only
    split_ifs <;> rfl
  · intro c p inv
    unfold CorridorCore.next_state
    dsimp only
    split_ifs <;> first | exact Or.inl rfl | exact Or.inr rfl

/-- Bee state with all indices at 0.3 used by the C8 witness. -/
def demoBeeState : CorridorCore.BeeState :=
  ⟨⟨⟨.BeeThermal, 3/10, 3/10, 3/10⟩, 0⟩, 1/2⟩

/-- Witness for C8: the demo state satisfies the invariant (residual
`0.27 ≤ 1`) and is a fixed point of the transition. -/
theorem claim_C8_witness :
    CorridorCore.inv_holds ⟨1⟩ demoBeeState.envelope = true ∧
    CorridorCore.next_state demoBeeState demoBeeState ⟨1⟩ = demoBeeState :=
  ⟨by norm_num [CorridorCore.inv_holds, CorridorCore.residual, demoBeeState],
   claim_C8.1 demoBeeState ⟨1⟩
     (by norm_num [CorridorCore.inv_holds, CorridorCore.residual, demoBeeState])⟩

/-- Claim C9. On every non-empty window the harm aggregation returns
`predicted_harm = 0` exactly (the per-snapshot predicted harm is
hard-coded to zero) and `delta_liability = realized_harm`; on an empty
window the function is undefined (the Rust `assert!` is modelled as
`none`). -/
theorem claim_C9 :
    (∀ (snapshots : List Cybernet.BeeTwinSnapshot) (w_v w_d w_w : ℚ),
        snapshots ≠ [] →
        ∃ h, Cybernet.aggregate_harm snapshots w_v w_d w_w = some h ∧
          h.predicted_harm = 0 ∧ h.delta_liability = h.realized_harm)
  ∧ (∀ w_v w_d w_w : ℚ, Cybernet.aggregate_harm [] w_v w_d w_w = none) := by
  constructor
  · intro snapshots wv wd ww hne
    match snapshots, hne with
    | s0 :: rest, _ =>
      refine ⟨_, rfl, ?_, ?_⟩
      · show (List.map (fun _ => (0:ℚ)) (s0 :: rest)).sum / _ = 0
        simp
      · show _ - (List.map (fun _ => (0:ℚ)) (s0 :: rest)).sum / _ = _
        simp
  · intro wv wd ww
    rfl

/-- Snapshot used by the C9 witness. -/
def demoSnap : Cybernet.BeeTwinSnapshot := ⟨0, 7, 0, 1, 2, 3, 3, 10, 9⟩

/-- Witness for C9: the singleton window around `demoSnap` aggregates to
zero predicted harm with `delta_liability = realized_harm`. -/
theorem claim_C9_witness :
    ∃ h, Cybernet.aggregate_harm [demoSnap] 1 1 1 = some h ∧
      h.predicted_harm = 0 ∧ h.delta_liability = h.realized_harm :=
  claim_C9.1 [demoSnap] 1 1 1 (List.cons_ne_nil _ _)

/-- Claim C10. The liability update always overwrites the envelope's
predicted/realized harm scores with the aggregation's values — also in the
`delta_liability ≤ warn_threshold` no-op branch — and never touches
`agent_id`, `corridor_id` or `last_update`. -/
theorem claim_C10 :
    ∀ (env : Cybernet.BeeKarmaEnvelope) (harm : Cybernet.HarmAggregation)
      (warn downgrade scale : ℚ),
      (Cybernet.apply_liability_to_envelope env harm warn downgrade
          scale).predicted_harm_score = harm.predicted_harm ∧
      (Cybernet.apply_liability_to_envelope env harm warn downgrade
          scale).realized_harm_score = harm.realized_harm ∧
      (Cybernet.apply_liability_to_envelope env harm warn downgrade
          scale).agent_id = env.agent_id ∧
      (Cybernet.apply_liability_to_envelope env harm warn downgrade
          scale).corridor_id = env.corridor_id ∧
      (Cybernet.apply_liability_to_envelope env harm warn downgrade
          scale).last_update = env.last_update := by
  intro env harm warn downgrade scale
  unfold Cybernet.apply_liability_to_envelope
  split_ifs <;> simp
